import Mathlib

/-!
Shallow embedding of `src/logger.hpp` (class `Logger`): the message
formatter, the dispatch to the console and file sinks, and the
profiling-timer registry, together with theorems settling the spec's
claims about them.

Modelling conventions:
* A C++ scoped enum has underlying type `int`, and out-of-range integers
  can be cast to it, so a `LogLevel` is its underlying integer.
* `std::chrono` time points are nanosecond counts (`Nat`);
  `duration_cast<microseconds>` truncates, i.e. divides by 1000.
* `std::string` is `String`; `std::string::find` returns `Option Nat`
  (`none` is `npos`); a throw of `std::out_of_range` is `Except.error`.
* The console-color calls (`SetConsoleTextAttribute`) are display-only
  side effects that no claim concerns; they are not modelled.
-/

namespace Logger

/-- The C++ `enum class LogLevel { Info, Warning, Error, Debug }` with its
underlying `int` values. Out-of-range integers are representable, as they
are for a C++ scoped enum. -/
abbrev LogLevel := Int

def LogLevel.Info : LogLevel := 0

def LogLevel.Warning : LogLevel := 1

def LogLevel.Error : LogLevel := 2

def LogLevel.Debug : LogLevel := 3

/-- Logger::Config, with the source's default member values. -/
structure Config where
  console_output : Bool := true
  file_output : Bool := false
  remote_logging : Bool := false
  log_format : String := "[%timestamp%] %level% %message%\n -> File: %file%:%line% (Function: %function%)\n"
  log_filename : String := "error_log.txt"
  deriving DecidableEq

/-- A std::source_location value: file name, line and function name. -/
structure SourceLocation where
  file_name : String
  line : Nat
  function_name : String
  deriving DecidableEq

/-- First index at which `pat` occurs as a contiguous sublist of the second
argument, scanning left to right; `none` when it never occurs. This is
`std::string::find`, with `none` standing for `npos`. -/
def findList (pat : List Char) : List Char → Option Nat
  | [] => if pat.isPrefixOf ([] : List Char) then some 0 else none
  | c :: rest =>
    if pat.isPrefixOf (c :: rest) then some 0
    else (findList pat rest).map (· + 1)

/-- `s.find(pat)` on strings. -/
def strFind (s pat : String) : Option Nat :=
  findList pat.toList s.toList

/-- `s.replace(pos, count, repl)` for a valid `pos`: the `count` characters
starting at `pos` (fewer if the string ends first) are replaced by
`repl`. -/
def replaceList (s : List Char) (pos count : Nat) (repl : List Char) : List Char :=
  s.take pos ++ repl ++ s.drop (pos + count)

/-- One substitution line of `format_message`:
`formatted_message.replace(formatted_message.find(token), count, value)`.
The source does not guard the not-found case: when `find` misses it
returns `npos`, and `std::string::replace` at `npos > size()` throws
`std::out_of_range`, modelled as `Except.error`. The source passes a
literal character count for each token, so `count` is a parameter rather
than `token.length`. -/
def replaceStep (s token value : String) (count : Nat) : Except String String :=
  match strFind s token with
  | some pos => .ok (String.mk (replaceList s.toList pos count value.toList))
  | none => .error "std::out_of_range"

/-- Logger::get_log_level_prefix. The switch returns the short prefix for
the four named levels and falls through to the default for every other
underlying value. The console-color side effect on each branch is
display-only and not modelled. -/
def get_log_level_prefix (level : LogLevel) : String :=
  if level = LogLevel.Info then "[+]"
  else if level = LogLevel.Warning then "[!]"
  else if level = LogLevel.Error then "[-]"
  else if level = LogLevel.Debug then "[*]"
  else "[?]"

/-- Logger::format_message. The `timestamp` parameter is the current local
time rendered by `std::put_time(std::localtime(&time), "%Y-%m-%d %H:%M:%S")`,
a value the formatting logic treats as an opaque string. The six
replace-find lines run in source order with the source's literal
character counts (10, 7, 9, 6, 6, 10). -/
def format_message (cfg : Config) (timestamp : String) (message : String)
    (level : LogLevel) (location : SourceLocation) : Except String String := do
  let m0 := cfg.log_format
  let m1 ← replaceStep m0 "%timestamp%" timestamp 10
  let m2 ← replaceStep m1 "%level%" ( get_log_level_prefix level) 7
  let m3 ← replaceStep m2 "%message%" message 9
  let m4 ← replaceStep m3 "%file%" location.file_name 6
  let m5 ← replaceStep m4 "%line%" (toString location.line) 6
  let m6 ← replaceStep m5 "%function%" location.function_name 10
  pure m6

/-- The variadic fold `(message_stream << ... << args)`: each argument
rendered as text, concatenated in call order with no separator. -/
def concatArgs (args : List String) : String :=
  String.join args

/-- Observable sink contents: the records written to `std::cerr` and the
records appended to the log file, oldest first. -/
structure SinkState where
  console : List String
  file : List String
  deriving DecidableEq

/-- Logger::write_to_console: writes the rendered record to `std::cerr`
(then resets the console color, a display-only effect that is not
modelled). The `level` parameter is accepted and, as in the source,
unused by the write itself. -/
def write_to_console (log_message : String) (level : LogLevel) (st : SinkState) : SinkState :=
  { st with console := st.console ++ [log_message] }

/-- Logger::write_to_file: opens the configured file in append mode and,
when `is_open()` holds, appends the record and flushes; a failed open is
silently skipped. `fileOpens` models whether the open succeeds. -/
def write_to_file (cfg : Config) (fileOpens : Bool) (log_message : String)
    (st : SinkState) : SinkState :=
  if fileOpens then { st with file := st.file ++ [log_message] } else st

/-- The task Logger::log hands to `std::async`: reads the configuration's
output flags and gives the captured rendered record, with its level, to
each enabled sink. -/
def deliver (cfg : Config) (fileOpens : Bool) (log_message : String)
    (level : LogLevel) (st : SinkState) : SinkState :=
  let st1 := if cfg.console_output then write_to_console log_message level st else st
  if cfg.file_output then write_to_file cfg fileOpens log_message st1 else st1

/-- The logger's static state: the active configuration `log_config`, the
profiling map `profiling_data` (std::map keys are unique; modelled as an
association list mutated by insert-or-assign), and the sink contents. -/
structure LoggerState where
  log_config : Config
  profiling_data : List (String × Nat)
  sinks : SinkState

/-- Logger::log over the whole call expression. The message parts are the
ostringstream concatenation of `args`; `format_message` runs
synchronously and its `std::out_of_range` propagates to the caller. The
`std::future` returned by `std::async(std::launch::async, task)` is
discarded at the end of the full expression, and the destructor of a
future from `std::async` blocks until its shared state is ready, so the
delivery task has completed by the time the call finishes; the embedding
therefore applies the delivery task before returning. -/
def log (level : LogLevel) (location : SourceLocation) (args : List String)
    (timestamp : String) (fileOpens : Bool) (st : LoggerState) :
    Except String LoggerState :=
  match format_message st.log_config timestamp (concatArgs args) level location with
  | .error e => .error e
  | .ok log_message =>
      .ok { st with sinks := deliver st.log_config fileOpens log_message level st.sinks }

/-- Lookup in the profiling map: `profiling_data.find(tag)`, as an optional
value. -/
def mapFind (k : String) : List (String × Nat) → Option Nat
  | [] => none
  | (k1, v) :: rest => if k = k1 then some v else mapFind k rest

/-- Insert-or-assign on the profiling map: `profiling_data[tag] = v`.
std::map::operator[] overwrites the value of an existing key and inserts
the key otherwise. -/
def mapInsert (k : String) (v : Nat) : List (String × Nat) → List (String × Nat)
  | [] => [(k, v)]
  | (k1, v1) :: rest => if k = k1 then (k, v) :: rest else (k1, v1) :: mapInsert k v rest

/-- Removal from the profiling map: `profiling_data.erase(tag)`. -/
def mapErase (k : String) : List (String × Nat) → List (String × Nat)
  | [] => []
  | (k1, v1) :: rest => if k = k1 then rest else (k1, v1) :: mapErase k rest

/-- One call made to the logging entry point: the level, the
std::source_location argument, and the ostringstream concatenation of the
variadic message parts. -/
structure LogCall where
  level : LogLevel
  location : SourceLocation
  message : String
  deriving DecidableEq

/-- Position of the `std::source_location::current()` expression written at
the `log` call inside Logger::end_profiling (src/logger.hpp line 64): an
explicit argument, it is evaluated there, inside the logger's own
implementation file. The exact path and signature spellings a compiler
produces are toolchain dependent; the embedding records the textual
position. -/
def end_profiling_loc : SourceLocation :=
  { file_name := "logger.hpp", line := 64, function_name := "end_profiling" }

/-- Position of the `std::source_location::current()` expression written at
the `log` call inside Logger::profile_function (src/logger.hpp line 76). -/
def profile_function_loc : SourceLocation :=
  { file_name := "logger.hpp", line := 76, function_name := "profile_function" }

/-- Logger::start_profiling: under the lock,
`profiling_data[tag] = std::chrono::high_resolution_clock::now()`,
inserting or overwriting the entry for `tag`. -/
def start_profiling (tag : String) (now : Nat) (pd : List (String × Nat)) :
    List (String × Nat) :=
  mapInsert tag now pd

/-- Logger::end_profiling: under the lock, takes `end_time = now()`; if
`tag` is in the map it computes the elapsed microseconds
(`duration_cast<microseconds>` truncates the nanosecond difference),
makes one Debug-level log call, and erases the entry; otherwise it does
nothing. The result is the updated map together with the log calls
made. -/
def end_profiling (tag : String) (end_time : Nat) (pd : List (String × Nat)) :
    List (String × Nat) × List LogCall :=
  match mapFind tag pd with
  | none => (pd, [])
  | some start =>
      let duration := (end_time - start) / 1000
      (mapErase tag pd,
        [⟨LogLevel.Debug, end_profiling_loc,
          concatArgs ["Execution time for ", tag, ": ", toString duration,
            " microseconds"]⟩])

/-- Outcome of a call to a C++ function declared noexcept: a normal return
carrying the result and the log calls made on the way, an exception
propagated to the caller, or termination of the process (an exception
escaping a noexcept function calls `std::terminate`, so `raised` is what
a propagating implementation would produce and `terminated` what a
noexcept one does). -/
inductive CallOutcome (ε α : Type) where
  | ok (result : α) (calls : List LogCall)
  | raised (exn : ε)
  | terminated
  deriving DecidableEq

/-- Logger::profile_function: records start and end times around one
synchronous invocation of the callable, which either returns a value or
raises (`Except`). The function is declared `noexcept`, so a raise from
the callable does not propagate: the process terminates via
`std::terminate`, and no duration record is emitted on that path. On
normal return one Debug-level duration record is logged and the
callable's result is returned unchanged. The clock readings are the
`start_time` and `end_time` parameters. -/
def profile_function (tag : String) (func : Unit → Except ε α)
    (start_time end_time : Nat) : CallOutcome ε α :=
  match func () with
  | .error _ => .terminated
  | .ok result =>
      let duration := (end_time - start_time) / 1000
      .ok result
        [⟨LogLevel.Debug, profile_function_loc,
          concatArgs ["Execution time for ", tag, ": ", toString duration,
            " microseconds"]⟩]

end Logger

namespace Logger

theorem mapFind_eq_none_iff (k : String) (l : List (String × Nat)) :
    mapFind k l = none ↔ k ∉ l.map Prod.fst := by
  induction l with
  | nil => simp [mapFind]
  | cons p rest ih =>
    obtain ⟨k1, v⟩ := p
    by_cases h : k = k1 <;> simp [mapFind, h, ih]

theorem mapFind_mapInsert_self (k : String) (v : Nat) (l : List (String × Nat)) :
    mapFind k (mapInsert k v l) = some v := by
  induction l with
  | nil => simp [mapInsert, mapFind]
  | cons p rest ih =>
    obtain ⟨k1, v1⟩ := p
    by_cases h : k = k1 <;> simp [mapInsert, mapFind, h, ih]

theorem mapFind_mapInsert_ne (k t : String) (v : Nat) (l : List (String × Nat))
    (h : t ≠ k) : mapFind t (mapInsert k v l) = mapFind t l := by
  induction l with
  | nil => simp [mapInsert, mapFind, h]
  | cons p rest ih =>
    obtain ⟨k1, v1⟩ := p
    by_cases h1 : k = k1
    · subst h1
      simp [mapInsert, mapFind, h]
    · by_cases h2 : t = k1 <;> simp [mapInsert, mapFind, h1, h2, ih]

theorem keys_mapInsert (k : String) (v : Nat) (l : List (String × Nat)) :
    (mapInsert k v l).map Prod.fst =
      if k ∈ l.map Prod.fst then l.map Prod.fst else l.map Prod.fst ++ [k] := by
  induction l with
  | nil => simp [mapInsert]
  | cons p rest ih =>
    obtain ⟨k1, v1⟩ := p
    by_cases h1 : k = k1
    · subst h1
      simp [mapInsert]
    · by_cases h2 : k ∈ rest.map Prod.fst <;>
        simp [mapInsert, h1, h2, ih]

theorem keys_mapInsert_nodup (k : String) (v : Nat) (l : List (String × Nat))
    (h : (l.map Prod.fst).Nodup) : ((mapInsert k v l).map Prod.fst).Nodup := by
  rw [keys_mapInsert]
  by_cases h2 : k ∈ l.map Prod.fst
  · simp [h2, h]
  · simp [h2, List.nodup_append, h]

theorem keys_mapErase_sublist (k : String) (l : List (String × Nat)) :
    ((mapErase k l).map Prod.fst).Sublist (l.map Prod.fst) := by
  induction l with
  | nil => simp [mapErase]
  | cons p rest ih =>
    obtain ⟨k1, v1⟩ := p
    by_cases h1 : k = k1
    · simp only [mapErase, if_pos h1]
      exact List.sublist_cons_self k1 (rest.map Prod.fst)
    · simpa [mapErase, h1] using ih.cons₂ k1

theorem mapFind_mapErase_self (k : String) (l : List (String × Nat))
    (h : (l.map Prod.fst).Nodup) : mapFind k (mapErase k l) = none := by
  induction l with
  | nil => simp [mapErase, mapFind]
  | cons p rest ih =>
    obtain ⟨k1, v1⟩ := p
    simp only [List.map_cons, List.nodup_cons] at h
    by_cases h1 : k = k1
    · subst h1
      simp only [mapErase, if_pos rfl]
      exact (mapFind_eq_none_iff k rest).mpr h.1
    · simp [mapErase, mapFind, h1, ih h.2]

end Logger

namespace Logger

/-- C1: the claim fails on the code. For a configuration whose template
omits the `%line%` placeholder, `format_message` does not skip the absent
substitution step: `find("%line%")` returns `npos` and
`replace(npos, 6, ...)` throws `std::out_of_range`, so formatting — and
the log call — fails instead of leaving the literal text unchanged. -/
theorem format_message_missing_line_raises :
    format_message { log_format := "[%timestamp%] %level% %message% %file% %function%" }
      "2024-01-01 00:00:00" "hello" LogLevel.Info ⟨"a.cpp", 42, "main"⟩ =
      .error "std::out_of_range" := by
  rfl

/-- C2: the claim fails on the code. The `std::future` that
`std::async(std::launch::async, ...)` returns is discarded by `log`, and
such a future blocks in its destructor until the delivery task has run;
with the default configuration (console_output = true) the record has
therefore already been written to the console sink when `log` returns:
the call does not return before sink I/O completes. -/
theorem log_call_returns_only_after_delivery :
    (log LogLevel.Info ⟨"a.cpp", 7, "main"⟩ ["hi"] "2024-01-01 00:00:00" true
        ⟨{}, [], ⟨[], []⟩⟩).map (fun st => st.sinks.console.length) = .ok 1 := by
  rfl

/-- C3: the claim fails on the code. For a template containing exactly one
occurrence of each of the six placeholders, `format_message` replaces
only 10 of the 11 characters of `%timestamp%`, so a stray `%` remains
after the substituted timestamp: the output is not free of placeholder
residue. -/
theorem format_message_timestamp_residue :
    format_message { log_format := "%timestamp%|%level%|%message%|%file%|%line%|%function%" }
      "2024-01-01 00:00:00" "hello" LogLevel.Info ⟨"a.cpp", 42, "main"⟩ =
      .ok "2024-01-01 00:00:00%|[+]|hello|a.cpp|42|main" := by
  rfl

/-- C4: for a tag that is still registered, `end_profiling` emits exactly
one Debug-level log call whose message is the concatenation
"Execution time for ", tag, ": ", the elapsed microseconds, and
" microseconds", and removes the tag's entry, so the tag is absent from
the registry afterward. -/
theorem end_profiling_registered_emits_and_removes (tag : String)
    (pd : List (String × Nat)) (start end_time : Nat)
    (hfound : mapFind tag pd = some start)
    (hnodup : (pd.map Prod.fst).Nodup) :
    (end_profiling tag end_time pd).2 =
      [⟨LogLevel.Debug, end_profiling_loc,
        concatArgs ["Execution time for ", tag, ": ",
          toString ((end_time - start) / 1000), " microseconds"]⟩] ∧
    mapFind tag (end_profiling tag end_time pd).1 = none := by
  constructor
  · simp [end_profiling, hfound]
  · simp [end_profiling, hfound, mapFind_mapErase_self tag pd hnodup]

/-- C4 witness: a started tag "T" ended 150 milliseconds later yields the
single Debug record reporting 150000 microseconds, and "T" is gone. -/
theorem end_profiling_registered_emits_and_removes_witness :
    mapFind "T" [("T", 100000000)] = some 100000000 ∧
    (([("T", 100000000)] : List (String × Nat)).map Prod.fst).Nodup ∧
    ((end_profiling "T" 250000000 [("T", 100000000)]).2 =
      [⟨LogLevel.Debug, end_profiling_loc,
        concatArgs ["Execution time for ", "T", ": ",
          toString (((250000000 : Nat) - 100000000) / 1000), " microseconds"]⟩] ∧
      mapFind "T" (end_profiling "T" 250000000 [("T", 100000000)]).1 = none) :=
  ⟨by decide, by decide,
    end_profiling_registered_emits_and_removes "T" [("T", 100000000)]
      100000000 250000000 (by decide) (by decide)⟩

/-- C6: ending a tag that is not in the registry is a silent no-op: the
registry is unchanged and no log call is made. -/
theorem end_profiling_absent_is_noop (tag : String) (end_time : Nat)
    (pd : List (String × Nat)) (h : mapFind tag pd = none) :
    end_profiling tag end_time pd = (pd, []) := by
  simp [end_profiling, h]

/-- C6 witness: ending the never-started tag "missing" on a registry
holding only "T" changes nothing and emits nothing. -/
theorem end_profiling_absent_is_noop_witness :
    mapFind "missing" [("T", 5)] = none ∧
    end_profiling "missing" 9 [("T", 5)] = ([("T", 5)], []) :=
  ⟨by decide, end_profiling_absent_is_noop "missing" 9 [("T", 5)] (by decide)⟩

end Logger

namespace Logger

/-- C5: counterexample to the claim as stated. With a callable that raises,
`profile_function` does not propagate the exception to its caller: the
function is declared `noexcept`, so the raise ends in `std::terminate`,
and no duration record is emitted. -/
theorem profile_function_raise_not_propagated :
    profile_function "X" (fun _ => (Except.error "boom" : Except String Nat))
        0 150000000 = CallOutcome.terminated ∧
    profile_function "X" (fun _ => (Except.error "boom" : Except String Nat))
        0 150000000 ≠ CallOutcome.raised "boom" := by
  refine ⟨rfl, ?_⟩
  decide

/-- C5 (amended): `profile_function` invokes the callable once,
synchronously; on normal return it emits exactly one Debug-level duration
record and returns the callable's result unchanged; if the callable
raises, the `noexcept` specification turns the raise into process
termination — the exception does not reach the caller — and no duration
record is emitted on that path. -/
theorem profile_function_noexcept_behavior {ε α : Type} (tag : String)
    (func : Unit → Except ε α) (start_time end_time : Nat) :
    (∀ r, func () = .ok r →
      profile_function tag func start_time end_time =
        .ok r [⟨LogLevel.Debug, profile_function_loc,
          concatArgs ["Execution time for ", tag, ": ",
            toString ((end_time - start_time) / 1000), " microseconds"]⟩]) ∧
    (∀ exn, func () = .error exn →
      profile_function tag func start_time end_time = .terminated) := by
  constructor
  · intro r hr
    simp [profile_function, hr]
  · intro exn hexn
    simp [profile_function, hexn]

/-- C5 witness: a callable returning 510 after a 150 millisecond sleep
yields exactly 510 and one Debug record reporting 150000 microseconds. -/
theorem profile_function_noexcept_behavior_witness :
    (fun _ : Unit => (Except.ok 510 : Except String Nat)) () = .ok 510 ∧
    profile_function "X" (fun _ => (Except.ok 510 : Except String Nat))
        0 150000000 =
      .ok 510 [⟨LogLevel.Debug, profile_function_loc,
        concatArgs ["Execution time for ", "X", ": ",
          toString (((150000000 : Nat) - 0) / 1000), " microseconds"]⟩] :=
  ⟨rfl,
    (profile_function_noexcept_behavior "X"
        (fun _ => (Except.ok 510 : Except String Nat)) 0 150000000).1 510 rfl⟩

/-- C7: the registry keys stay duplicate-free under start_profiling and
end_profiling — at most one live entry per tag — and start_profiling on
an already-registered tag overwrites that tag's start time (last write
wins) while leaving every other tag's entry unchanged. -/
theorem start_profiling_overwrites_single_entry (tag : String)
    (now end_time : Nat) (pd : List (String × Nat))
    (h : (pd.map Prod.fst).Nodup) :
    ((start_profiling tag now pd).map Prod.fst).Nodup ∧
    (((end_profiling tag end_time pd).1).map Prod.fst).Nodup ∧
    mapFind tag (start_profiling tag now pd) = some now ∧
    ∀ t, t ≠ tag → mapFind t (start_profiling tag now pd) = mapFind t pd := by
  refine ⟨keys_mapInsert_nodup tag now pd h, ?_,
    mapFind_mapInsert_self tag now pd, ?_⟩
  · cases hf : mapFind tag pd with
    | none => simpa [end_profiling, hf] using h
    | some s =>
        simp only [end_profiling, hf]
        exact (keys_mapErase_sublist tag pd).nodup h
  · intro t ht
    exact mapFind_mapInsert_ne tag t now pd ht

/-- C7 witness: restarting the registered tag "T" overwrites its start time
with the new one, keeps the other tag intact, and keeps the keys
duplicate-free. -/
theorem start_profiling_overwrites_single_entry_witness :
    (([("T", 5), ("U", 7)] : List (String × Nat)).map Prod.fst).Nodup ∧
    (((start_profiling "T" 9 [("T", 5), ("U", 7)]).map Prod.fst).Nodup ∧
      (((end_profiling "T" 11 [("T", 5), ("U", 7)]).1).map Prod.fst).Nodup ∧
      mapFind "T" (start_profiling "T" 9 [("T", 5), ("U", 7)]) = some 9 ∧
      ∀ t, t ≠ "T" →
        mapFind t (start_profiling "T" 9 [("T", 5), ("U", 7)]) =
          mapFind t [("T", 5), ("U", 7)]) :=
  ⟨by decide,
    start_profiling_overwrites_single_entry "T" 9 11 [("T", 5), ("U", 7)]
      (by decide)⟩

/-- C8: the formatter's level prefix is exactly "[+]" for Info, "[!]" for
Warning, "[-]" for Error, "[*]" for Debug, and "[?]" for every other
underlying level value. -/
theorem get_log_level_prefix_mapping :
    get_log_level_prefix LogLevel.Info = "[+]" ∧
    get_log_level_prefix LogLevel.Warning = "[!]" ∧
    get_log_level_prefix LogLevel.Error = "[-]" ∧
    get_log_level_prefix LogLevel.Debug = "[*]" ∧
    ∀ level : LogLevel, level ≠ LogLevel.Info → level ≠ LogLevel.Warning →
      level ≠ LogLevel.Error → level ≠ LogLevel.Debug →
      get_log_level_prefix level = "[?]" := by
  refine ⟨rfl, rfl, rfl, rfl, ?_⟩
  intro level h0 h1 h2 h3
  simp [ get_log_level_prefix, h0, h1, h2, h3]

/-- C8 witness: the out-of-range underlying value 99 gets the unknown
prefix. -/
theorem get_log_level_prefix_mapping_witness :
    (99 : LogLevel) ≠ LogLevel.Info ∧
    get_log_level_prefix (99 : LogLevel) = "[?]" :=
  ⟨by decide,
    get_log_level_prefix_mapping.2.2.2.2 99 (by decide) (by decide) (by decide)
      (by decide)⟩

/-- C9: the log level never affects routing. Delivering the same rendered
record under two different levels produces identical sink states, the
console receives the record exactly when console_output is set, and the
file receives it exactly when file_output is set and the file opens; the
level reaches the sinks only alongside the already-rendered text. -/
theorem routing_independent_of_level (cfg : Config) (fileOpens : Bool)
    (msg : String) (l1 l2 : LogLevel) (st : SinkState) :
    deliver cfg fileOpens msg l1 st = deliver cfg fileOpens msg l2 st ∧
    ((deliver cfg fileOpens msg l1 st).console = st.console ++ [msg] ↔
      cfg.console_output = true) ∧
    ((deliver cfg fileOpens msg l1 st).file = st.file ++ [msg] ↔
      (cfg.file_output = true ∧ fileOpens = true)) := by
  obtain ⟨co, fo, rl, fmt, fn⟩ := cfg
  cases co <;> cases fo <;> cases fileOpens <;>
    simp [deliver, write_to_console, write_to_file]

/-- C10: every record emitted by end_profiling or profile_function carries
the call-site descriptor of the log invocation written inside the
logger's own implementation file — the std::source_location::current()
argument at src/logger.hpp lines 64 and 76 — not a location from the
user code that called the profiling operation. -/
theorem profiling_records_use_internal_location {ε α : Type} (tag : String)
    (end_time : Nat) (pd : List (String × Nat)) (func : Unit → Except ε α)
    (start_time finish_time : Nat) :
    (∀ r ∈ (end_profiling tag end_time pd).2, r.location = end_profiling_loc) ∧
    (∀ result calls,
      profile_function tag func start_time finish_time = .ok result calls →
      ∀ r ∈ calls, r.location = profile_function_loc) ∧
    end_profiling_loc.file_name = "logger.hpp" ∧
    profile_function_loc.file_name = "logger.hpp" := by
  refine ⟨?_, ?_, rfl, rfl⟩
  · cases hf : mapFind tag pd with
    | none => simp [end_profiling, hf]
    | some s => simp [end_profiling, hf]
  · intro result calls hcall r hr
    cases hfunc : func () with
    | error exn => simp [profile_function, hfunc] at hcall
    | ok v =>
        simp only [profile_function, hfunc, CallOutcome.ok.injEq] at hcall
        obtain ⟨hres, hcalls⟩ := hcall
        subst hcalls
        simp only [List.mem_singleton] at hr
        subst hr
        rfl

/-- C10 witness: the concrete records produced by ending tag "T" and by
profiling a callable both carry the internal locations. -/
theorem profiling_records_use_internal_location_witness :
    (⟨LogLevel.Debug, end_profiling_loc,
      concatArgs ["Execution time for ", "T", ": ",
        toString (((2000 : Nat) - 0) / 1000), " microseconds"]⟩ :
        LogCall).location = end_profiling_loc ∧
    (⟨LogLevel.Debug, profile_function_loc,
      concatArgs ["Execution time for ", "T", ": ",
        toString (((500 : Nat) - 0) / 1000), " microseconds"]⟩ :
        LogCall).location = profile_function_loc :=
  ⟨(profiling_records_use_internal_location "T" 2000 [("T", 0)]
      (fun _ => (Except.ok 0 : Except String Nat)) 0 500).1 _ (by decide),
    (profiling_records_use_internal_location "T" 2000 [("T", 0)]
      (fun _ => (Except.ok 0 : Except String Nat)) 0 500).2.1 0 _ rfl _
      (by decide)⟩

end Logger
